import Mathlib

/-
Verification of the dwarven-realm grid/pathfinding/need-scheduler core.

The development is a shallow embedding of the TypeScript sources:
  - src/server/storage.ts        (MemStorage: stores, generateWorld, findPath,
                                  updateResource, assignTask, grid overlays)
  - src/server/routes.ts         (POST /api/world/generate handler)
  - src/client/src/lib/stores/useDwarves.tsx   (updateNeeds, satisfyNeed,
                                  assignTask, updateDialogue)
  - src/client/src/lib/stores/useBuilding.tsx  (harvestResource)
  - src/client/src/components/game/AIControls.tsx (both checkCriticalNeeds
                                  variants)

Modelling conventions:
  - JS numbers holding integers are Int; JS numbers holding fractional
    quantities (needs, resource quantities, LCG outputs) are Rat; the
    floating-point elevation computation (Math.sqrt) is modelled over Real,
    so the few definitions touching elevation values are noncomputable.
  - JS `%` is truncated remainder, i.e. Int.tmod.
  - JS Math.round x = floor (x + 1/2); Math.floor = Int.floor.
  - `Map<number, T>` stores are association lists in insertion order;
    `Map.set` replaces in place or appends.
  - String-valued TS enums (TaskType, BuildingType, ResourceType, cell type)
    are inductive types; string payloads irrelevant to control flow (dialogue
    text, names) are kept as opaque `String` fields.
  - While-loops are structural recursion on an explicit fuel argument chosen
    at least as large as the loop can iterate (A* pops each grid cell at most
    once, so width*height+1 bounds the main loop).
-/

namespace DwarvenRealm

/-! ## Basic data model (src/client/src/types/game.ts, @shared/schema) -/

/-- `Point2D` from types/game.ts. -/
structure Point2D where
  x : Int
  y : Int
deriving DecidableEq, Repr

/-- The cell kind union `"terrain" | "building" | "resource"`. -/
inductive CellType where
  | terrain
  | building
  | resource
deriving DecidableEq, Repr

/-- `TaskType` enum from @shared/schema. -/
inductive TaskType where
  | idle
  | mining
  | woodcutting
  | building
  | eating
  | sleeping
  | socializing
  | crafting
  | hauling
deriving DecidableEq, Repr

/-- `BuildingType` enum from @shared/schema. -/
inductive BuildingType where
  | wall
  | floor
  | door
  | bed
  | table
  | chair
  | workshop
  | storage
  | farm
deriving DecidableEq, Repr

/-- `ResourceType` enum from @shared/schema. -/
inductive ResourceType where
  | stone
  | wood
  | food
  | metal
  | water
deriving DecidableEq, Repr

/-- `GridCell` from types/game.ts. The `elevation` field is always
integer-valued in the source (initialised to 0, assigned `Math.round`),
so it is an `Int` holding the rounded value. -/
structure GridCell where
  x : Int
  y : Int
  type : CellType
  walkable : Bool
  buildingId : Option Nat := none
  resourceId : Option Nat := none
  elevation : Int
deriving DecidableEq, Repr

/-- `GameWorld` from types/game.ts: a row-major grid (`grid[y][x]`). -/
structure GameWorld where
  grid : List (List GridCell)
  width : Int
  height : Int
deriving DecidableEq, Repr

/-! ## List helpers: association lists in insertion order (JS Map), and
a positional modifier for nested grid rows. -/

/-- Lookup in an insertion-ordered association list (JS `Map.get`). -/
def lookupId {α : Type} (l : List (Nat × α)) (k : Nat) : Option α :=
  (l.find? (fun p => p.1 == k)).map (fun p => p.2)

/-- Insert or replace in an insertion-ordered association list (JS `Map.set`):
an existing key keeps its position, a new key is appended. -/
def setId {α : Type} (l : List (Nat × α)) (k : Nat) (v : α) : List (Nat × α) :=
  if l.any (fun p => p.1 == k) then
    l.map (fun p => if p.1 == k then (k, v) else p)
  else
    l ++ [(k, v)]

/-- Apply `f` to the element at index `i`, if present. -/
def modifyNth {α : Type} (f : α → α) : Nat → List α → List α
  | _, [] => []
  | 0, a :: l => f a :: l
  | n + 1, a :: l => a :: modifyNth f n l

/-! ## Grid access and mutation (MemStorage private helpers) -/

/-- Read `world.grid[y][x]`; `none` when the indices fall outside the stored
row/column lists or are negative. -/
def cellAt (w : GameWorld) (x y : Int) : Option GridCell :=
  if 0 ≤ x ∧ 0 ≤ y then
    (w.grid.get? y.toNat).bind (fun row => row.get? x.toNat)
  else
    none

/-- Overwrite `world.grid[y][x]` through `f` (in-place array assignment in the
source). Callers guard bounds before writing. -/
def setCellWith (w : GameWorld) (x y : Int) (f : GridCell → GridCell) : GameWorld :=
  if 0 ≤ x ∧ 0 ≤ y then
    { w with grid := modifyNth (fun row => modifyNth f x.toNat row) y.toNat w.grid }
  else
    w

/-- `getManhattanDistance` from isometricUtils.ts. -/
def getManhattanDistance (p1 p2 : Point2D) : Int :=
  |p1.x - p2.x| + |p1.y - p2.y|

/-! ## Pathfinding (MemStorage.findPath, storage.ts lines 624-731) -/

/-- An entry of the A* open set: `{ pos, f, g, parent }`. -/
structure PathNode where
  pos : Point2D
  f : Int
  g : Int
  parent : Option Point2D
deriving DecidableEq, Repr

/-- Insert a node after all nodes with `f` less than or equal to its own, the
insertion step of a stable sort. -/
def insertByF (n : PathNode) : List PathNode → List PathNode
  | [] => [n]
  | m :: rest => if m.f ≤ n.f then m :: insertByF n rest else n :: m :: rest

/-- Stable sort of the open set by ascending `f`
(`openSet.sort((a, b) => a.f - b.f)`; JS sort is stable). -/
def sortByF (l : List PathNode) : List PathNode :=
  l.foldl (fun acc n => insertByF n acc) []

/-- Walkability test `this.worldGrid.grid[y][x].walkable`; out-of-range
lookups (never taken, the caller checks bounds first) read as not walkable. -/
def walkableAt (w : GameWorld) (x y : Int) : Bool :=
  match cellAt w x y with
  | some c => c.walkable
  | none => false

/-- The four orthogonal directions, in source order. -/
def pathDirections : List (Int × Int) := [(1, 0), (-1, 0), (0, 1), (0, -1)]

/-- Path reconstruction: the source walks `parent` links, looking each parent
up in the (already shrunken) open set and falling back to a parentless stub
entry when the search fails. `rest` is the open set after the goal was
shifted off. -/
def reconstructPath (rest : List PathNode) (gScore : List (Point2D × Int)) :
    Nat → PathNode → List Point2D → List Point2D
  | 0, _, acc => acc
  | fuel + 1, curr, acc =>
    match curr.parent with
    | none => acc
    | some p =>
      let acc' := curr.pos :: acc
      let next :=
        match rest.find? (fun it => it.pos == p) with
        | some it => it
        | none =>
          { pos := p, f := 0,
            g := (match lookupIdP gScore p with | some g0 => g0 | none => 0),
            parent := none }
      reconstructPath rest gScore fuel next acc'
where
  /-- Lookup in a `Point2D`-keyed record (the source keys records by the
  string `"x,y"`, an injective encoding of the point). -/
  lookupIdP (l : List (Point2D × Int)) (k : Point2D) : Option Int :=
    (l.find? (fun p => p.1 == k)).map (fun p => p.2)

/-- `Point2D`-keyed record lookup (string keys `"x,y"` in the source). -/
def lookupP (l : List (Point2D × Int)) (k : Point2D) : Option Int :=
  (l.find? (fun p => p.1 == k)).map (fun p => p.2)

/-- `Point2D`-keyed record update. -/
def setP (l : List (Point2D × Int)) (k : Point2D) (v : Int) : List (Point2D × Int) :=
  if l.any (fun p => p.1 == k) then
    l.map (fun p => if p.1 == k then (k, v) else p)
  else
    l ++ [(k, v)]

/-- Process one neighbor direction: bounds check, closed-set check,
walkability check, g-score comparison, score updates and conditional push. -/
def processNeighbor (w : GameWorld) (goal : Point2D) (current : PathNode)
    (closed : List Point2D) (acc : List PathNode × List (Point2D × Int) × List (Point2D × Int))
    (dir : Int × Int) : List PathNode × List (Point2D × Int) × List (Point2D × Int) :=
  let (opn, gS, fS) := acc
  let npos : Point2D := ⟨current.pos.x + dir.1, current.pos.y + dir.2⟩
  if npos.x < 0 ∨ npos.x ≥ w.width ∨ npos.y < 0 ∨ npos.y ≥ w.height then
    acc
  else if closed.contains npos then
    acc
  else if ¬ walkableAt w npos.x npos.y then
    acc
  else
    let tentativeG := current.g + 1
    let better :=
      match lookupP gS npos with
      | some g0 => decide (tentativeG < g0)
      | none => true
    if better then
      let nf := tentativeG + getManhattanDistance npos goal
      let gS' := setP gS npos tentativeG
      let fS' := setP fS npos nf
      let opn' :=
        if opn.any (fun it => it.pos == npos) then opn
        else opn ++ [{ pos := npos, f := nf, g := tentativeG, parent := some current.pos }]
      (opn', gS', fS')
    else
      acc

/-- The A* main loop (`while (openSet.length > 0)`), fuel-bounded: each grid
cell enters the open set at most once, so `width*height + 1` iterations always
suffice and fuel exhaustion coincides with open-set exhaustion. -/
def astarLoop (w : GameWorld) (goal : Point2D) :
    Nat → List PathNode → List Point2D → List (Point2D × Int) → List (Point2D × Int) →
    List Point2D
  | 0, _, _, _, _ => []
  | fuel + 1, opn, closed, gS, fS =>
    match sortByF opn with
    | [] => []
    | current :: rest =>
      if current.pos = goal then
        reconstructPath rest gS (rest.length + 2) current []
      else
        let closed' := current.pos :: closed
        let (opn', gS', fS') :=
          pathDirections.foldl (processNeighbor w goal current closed') (rest, gS, fS)
        astarLoop w goal fuel opn' closed' gS' fS'

/-- `MemStorage.findPath(start, end)`; the first argument is
`this.worldGrid`. -/
def findPath (worldGrid : Option GameWorld) (start goal : Point2D) : List Point2D :=
  match worldGrid with
  | none => [start, goal]
  | some w =>
    if start.x < 0 ∨ start.x ≥ w.width ∨ start.y < 0 ∨ start.y ≥ w.height ∨
        goal.x < 0 ∨ goal.x ≥ w.width ∨ goal.y < 0 ∨ goal.y ≥ w.height then
      []
    else if start.x = goal.x ∧ start.y = goal.y then
      []
    else
      astarLoop w goal (w.width.toNat * w.height.toNat + 1)
        [{ pos := start, f := getManhattanDistance start goal, g := 0, parent := none }]
        [] [(start, 0)] [(start, getManhattanDistance start goal)]

/-! ## Server-side entities (storage.ts) -/

/-- Server `Dwarf` record (@shared/schema); opaque payloads (name, inventory,
conversation, memory, lastUpdated) are omitted as they never influence the
modelled operations. `state` holds `TaskType` string values
(`"idle"` included). -/
structure Dwarf where
  id : Nat
  health : Rat
  hunger : Rat
  energy : Rat
  happiness : Rat
  x : Int
  y : Int
  currentTask : Option TaskType
  state : TaskType
deriving DecidableEq, Repr

/-- Server `Building` record; `materials`/`occupants`/`function` omitted
(never read by the modelled operations). -/
structure Building where
  id : Nat
  type : BuildingType
  x : Int
  y : Int
  width : Int
  height : Int
  complete : Bool
  progress : Rat
deriving DecidableEq, Repr

/-- Server `Resource` record. -/
structure Resource where
  id : Nat
  type : ResourceType
  x : Int
  y : Int
  quantity : Rat
  regenerate : Bool
deriving DecidableEq, Repr

/-- Server `Task` record (storage.ts lines 13-22). -/
structure Task where
  id : Nat
  type : TaskType
  target : Option Point2D
  priority : Int
  assignedTo : Option Nat
  completed : Bool
  progress : Rat
deriving DecidableEq, Repr

/-- The mutable fields of `MemStorage` touched by the modelled operations
(users and the remaining game-state fields are omitted). -/
structure Storage where
  dwarfStore : List (Nat × Dwarf)
  buildingStore : List (Nat × Building)
  resourceStore : List (Nat × Resource)
  taskStore : List (Nat × Task)
  worldGrid : Option GameWorld
  dwarfCounter : Nat
  buildingCounter : Nat
  resourceCounter : Nat
  taskCounter : Nat
  worldSeed : Int
deriving DecidableEq, Repr

/-- A storage with empty collections (the concrete starter data built by the
`MemStorage` constructor is randomized via `Math.random`, so store contents
are treated as an arbitrary parameter throughout). -/
def emptyStorage : Storage :=
  { dwarfStore := [], buildingStore := [], resourceStore := [], taskStore := [],
    worldGrid := none, dwarfCounter := 1, buildingCounter := 1,
    resourceCounter := 1, taskCounter := 1, worldSeed := 0 }

/-! ## Grid overlays (updateWorldGridForBuilding / updateWorldGridForResource) -/

/-- `updateWorldGridForBuilding` (storage.ts lines 354-371), acting on a given
grid: every covered in-bounds cell becomes a building cell, walkable unless
the building is a wall. -/
def updateWorldGridForBuilding (wg : GameWorld) (b : Building) : GameWorld :=
  (List.range b.height.toNat).foldl
    (fun accY i =>
      let y := b.y + (i : Int)
      (List.range b.width.toNat).foldl
        (fun accX j =>
          let x := b.x + (j : Int)
          if 0 ≤ x ∧ x < accX.width ∧ 0 ≤ y ∧ y < accX.height then
            setCellWith accX x y (fun c =>
              { c with type := CellType.building, buildingId := some b.id,
                       walkable := decide (b.type ≠ BuildingType.wall) })
          else accX)
        accY)
    wg

/-- `updateWorldGridForResource` (storage.ts lines 428-445): mark the single
cell when the resource has positive quantity. -/
def updateWorldGridForResource (wg : GameWorld) (r : Resource) : GameWorld :=
  if r.quantity ≤ 0 then wg
  else if 0 ≤ r.x ∧ r.x < wg.width ∧ 0 ≤ r.y ∧ r.y < wg.height then
    setCellWith wg r.x r.y (fun c =>
      { c with type := CellType.resource, resourceId := some r.id, walkable := true })
  else wg

/-- Lift a building overlay to the storage (`this.worldGrid`, when present). -/
def markBuildingOnWorld (st : Storage) (b : Building) : Storage :=
  match st.worldGrid with
  | some wg => { st with worldGrid := some (updateWorldGridForBuilding wg b) }
  | none => st

/-- Lift a resource overlay to the storage (`this.worldGrid`, when present). -/
def markResourceOnWorld (st : Storage) (r : Resource) : Storage :=
  match st.worldGrid with
  | some wg => { st with worldGrid := some (updateWorldGridForResource wg r) }
  | none => st

/-! ## Resource CRUD (storage.ts lines 383-445) -/

/-- `createResource` with all fields supplied (every call site in the
modelled code passes them explicitly). Allocates the next id, stores the
resource, and overlays it on the current `worldGrid` if one exists. -/
def createResource (st : Storage) (ty : ResourceType) (x y : Int)
    (quantity : Rat) (regenerate : Bool) : Resource × Storage :=
  let id := st.resourceCounter
  let r : Resource := { id := id, type := ty, x := x, y := y,
                        quantity := quantity, regenerate := regenerate }
  let st1 := { st with resourceStore := setId st.resourceStore id r,
                       resourceCounter := id + 1 }
  (r, markResourceOnWorld st1 r)

/-- A `Partial<Resource>` patch. -/
structure ResourcePatch where
  type : Option ResourceType := none
  x : Option Int := none
  y : Option Int := none
  quantity : Option Rat := none
  regenerate : Option Bool := none
deriving DecidableEq, Repr

/-- JS object spread `{ ...resource, ...updates }`. -/
def mergeResource (r : Resource) (p : ResourcePatch) : Resource :=
  { r with
    type := p.type.getD r.type,
    x := p.x.getD r.x,
    y := p.y.getD r.y,
    quantity := p.quantity.getD r.quantity,
    regenerate := p.regenerate.getD r.regenerate }

/-- `MemStorage.updateResource` (storage.ts lines 404-426). When the merged
resource is depleted (`quantity <= 0`) and a world grid exists, the resource's
cell is reset to walkable terrain — with no check of `regenerate`. -/
def updateResource (st : Storage) (id : Nat) (p : ResourcePatch) :
    Option Resource × Storage :=
  match lookupId st.resourceStore id with
  | none => (none, st)
  | some r =>
    let ur := mergeResource r p
    let st1 := { st with resourceStore := setId st.resourceStore id ur }
    let st2 :=
      if ur.quantity ≤ 0 then
        match st1.worldGrid with
        | some wg =>
          if 0 ≤ ur.x ∧ ur.x < wg.width ∧ 0 ≤ ur.y ∧ ur.y < wg.height then
            { st1 with worldGrid := some (setCellWith wg ur.x ur.y (fun c =>
                { c with type := CellType.terrain, resourceId := none,
                         walkable := true })) }
          else st1
        | none => st1
      else st1
    (some ur, st2)

/-! ## Task assignment (storage.ts lines 494-511) -/

/-- `MemStorage.assignTask(taskId, dwarfId)`: `undefined` when either id is
absent (before any mutation); on success the task records the assignee and the
dwarf mirrors the task kind onto `currentTask` and `state`. -/
def assignTask (st : Storage) (taskId dwarfId : Nat) : Option Task × Storage :=
  match lookupId st.taskStore taskId with
  | none => (none, st)
  | some task =>
    match lookupId st.dwarfStore dwarfId with
    | none => (none, st)
    | some dwarf =>
      let updatedTask := { task with assignedTo := some dwarfId }
      let updatedDwarf := { dwarf with currentTask := some task.type, state := task.type }
      (some updatedTask,
        { st with taskStore := setId st.taskStore taskId updatedTask,
                  dwarfStore := setId st.dwarfStore dwarfId updatedDwarf })

/-! ## Seeded world generation (storage.ts lines 515-620)

`seededRandom` is the LCG `seed = (seed * 9301 + 49297) % 233280`, with JS `%`
being the truncated remainder. The elevation computation uses `Math.sqrt`, so
the definitions from `hillInfluence` on are over `Real` and noncomputable. -/

/-- One LCG step. -/
def lcgNext (s : Int) : Int := Int.tmod (s * 9301 + 49297) 233280

/-- One call of the closure returned by `seededRandom`: updated state and the
returned value `seed / 233280` (written `mkRat`, the same rational). -/
def lcgDraw (s : Int) : Rat × Int :=
  let s' := lcgNext s
  (mkRat s' 233280, s')

/-- A hill center produced by `generateTerrain`. -/
structure Hill where
  x : Int
  y : Int
  radius : Int
  height : Int
deriving DecidableEq, Repr

/-- Draw one hill: `x = floor(random()*width)`, `y = floor(random()*height)`,
`radius = 3 + floor(random()*5)`, `height = 1 + floor(random()*3)`. -/
def mkHill (w h : Int) (s : Int) : Hill × Int :=
  let d1 := lcgDraw s
  let d2 := lcgDraw d1.2
  let d3 := lcgDraw d2.2
  let d4 := lcgDraw d3.2
  ({ x := ⌊d1.1 * (w : Rat)⌋, y := ⌊d2.1 * (h : Rat)⌋,
     radius := 3 + ⌊d3.1 * 5⌋, height := 1 + ⌊d4.1 * 3⌋ }, d4.2)

/-- Draw `n` hills in sequence. -/
def mkHills (w h : Int) : Nat → Int → List Hill × Int
  | 0, s => ([], s)
  | n + 1, s =>
    let p := mkHill w h s
    let q := mkHills w h n p.2
    (p.1 :: q.1, q.2)

/-- `numHills = Math.floor(width * height / 100)` (clipped at 0 iterations for
a negative count, as the source loop would run zero times). -/
def numHills (w h : Int) : Nat := (⌊mkRat (w * h) 100⌋).toNat

/-- `Math.round` (JS: round half toward positive infinity). -/
noncomputable def jsRound (x : Real) : Int := ⌊x + 1 / 2⌋

/-- The influence of one hill on cell `(x, y)`:
`height * (1 - distance/radius)` when `distance < radius`, else nothing. -/
noncomputable def hillInfluence (x y : Int) (hill : Hill) : Real :=
  let dx : Real := (x : Real) - (hill.x : Real)
  let dy : Real := (y : Real) - (hill.y : Real)
  let distance := Real.sqrt (dx * dx + dy * dy)
  if distance < (hill.radius : Real) then
    (hill.height : Real) * (1 - distance / (hill.radius : Real))
  else 0

/-- The accumulated (un-rounded) elevation of cell `(x, y)`. -/
noncomputable def elevationValue (hills : List Hill) (x y : Int) : Real :=
  hills.foldl (fun acc hill => acc + hillInfluence x y hill) 0

/-- A freshly generated cell: walkable terrain carrying the rounded
elevation. -/
noncomputable def terrainCell (hills : List Hill) (x y : Int) : GridCell :=
  { x := x, y := y, type := CellType.terrain, walkable := true,
    elevation := jsRound (elevationValue hills x y) }

/-- The generated grid, row-major. -/
noncomputable def terrainGrid (w h : Int) (hills : List Hill) : List (List GridCell) :=
  (List.range h.toNat).map (fun y =>
    (List.range w.toNat).map (fun x => terrainCell hills (Int.ofNat x) (Int.ofNat y)))

/-- The `(x, y)` pairs visited by the nested water loop, in source order
(`y` outer, `x` inner). -/
def cellCoords (w h : Int) : List (Int × Int) :=
  (List.range h.toNat).flatMap (fun y =>
    (List.range w.toNat).map (fun x => ((x : Int), (y : Int))))

/-- The water pass of `generateTerrain`: any cell whose rounded elevation is
below -1 creates a regenerating Water resource (quantity 100). -/
noncomputable def addWater (w h : Int) (hills : List Hill) (st : Storage) : Storage :=
  (cellCoords w h).foldl
    (fun acc xy =>
      if jsRound (elevationValue hills xy.1 xy.2) < -1 then
        (createResource acc ResourceType.water xy.1 xy.2 100 true).2
      else acc)
    st

/-- `MemStorage.generateWorld(width, height, seed)`. Faithful to the source,
including its quirk that the building/resource overlay loops write to
`this.worldGrid` — still the PREVIOUS world (or nothing) at that point —
while the freshly built grid is installed afterwards untouched. -/
noncomputable def generateWorld (st : Storage) (width height seed : Int) :
    GameWorld × Storage :=
  let hills := (mkHills width height (numHills width height) seed).1
  let grid := terrainGrid width height hills
  let st1 := addWater width height hills st
  let st2 := st1.buildingStore.foldl (fun acc p => markBuildingOnWorld acc p.2) st1
  let st3 := st2.resourceStore.foldl (fun acc p => markResourceOnWorld acc p.2) st2
  let world : GameWorld := { grid := grid, width := width, height := height }
  (world, { st3 with worldGrid := some world, worldSeed := seed })

/-! ## World-generation route (routes.ts lines 399-417) -/

/-- Outcome of `POST /api/world/generate`. -/
inductive WorldGenResponse where
  | invalidDimensions
  | success (world : GameWorld)

/-- The route handler. `width`/`height`/`seed` are the (possibly absent) body
fields; `randSeed` stands for the `Math.floor(Math.random() * 1000000)`
fallback. JS truthiness: an absent or zero field fails `!width` / `!height`,
and a zero or absent seed falls back to `randSeed`. -/
noncomputable def worldGenerateRoute (st : Storage)
    (width height seed : Option Int) (randSeed : Int) : WorldGenResponse × Storage :=
  let w := width.getD 0
  let h := height.getD 0
  if w = 0 ∨ h = 0 ∨ w < 10 ∨ h < 10 ∨ w > 100 ∨ h > 100 then
    (WorldGenResponse.invalidDimensions, st)
  else
    let s := match seed with
      | some s0 => if s0 = 0 then randSeed else s0
      | none => randSeed
    let (world, st') := generateWorld st w h s
    (WorldGenResponse.success world, st')

/-! ## Client dwarf store (useDwarves.tsx) -/

/-- `ClientDwarf` fields consumed by the modelled store actions. `animation`
strings are kept verbatim; dialogue text is opaque. -/
structure ClientDwarf where
  id : Nat
  x : Int
  y : Int
  hunger : Rat
  energy : Rat
  happiness : Rat
  currentTask : Option TaskType
  state : TaskType
  target : Option Point2D
  animation : String
  currentDialogue : String
  dialogueVisible : Bool
deriving DecidableEq, Repr

/-- `updateNeeds` (useDwarves.tsx lines 149-158): apply the three deltas to
the matching dwarf, clamping each need to [0, 100]. -/
def updateNeeds (dwarves : List ClientDwarf) (id : Nat)
    (hunger energy happiness : Rat) : List ClientDwarf :=
  dwarves.map (fun d =>
    if d.id == id then
      { d with
        hunger := max 0 (min 100 (d.hunger + hunger)),
        energy := max 0 (min 100 (d.energy + energy)),
        happiness := max 0 (min 100 (d.happiness + happiness)) }
    else d)

/-- The need selector of `satisfyNeed`. -/
inductive NeedType where
  | hunger
  | energy
  | happiness
deriving DecidableEq, Repr

/-- `satisfyNeed` (useDwarves.tsx lines 160-182): hunger decreases by
`amount`, energy/happiness increase, the touched need clamped to [0, 100];
no-op when the dwarf is not found. -/
def satisfyNeed (dwarves : List ClientDwarf) (id : Nat) (needType : NeedType)
    (amount : Rat) : List ClientDwarf :=
  match dwarves.find? (fun d => d.id == id) with
  | none => dwarves
  | some d =>
    let ud :=
      match needType with
      | NeedType.hunger => { d with hunger := max 0 (min 100 (d.hunger - amount)) }
      | NeedType.energy => { d with energy := max 0 (min 100 (d.energy + amount)) }
      | NeedType.happiness => { d with happiness := max 0 (min 100 (d.happiness + amount)) }
    dwarves.map (fun q => if q.id == id then ud else q)

/-- The animation chosen by the client `assignTask`. -/
def taskAnimation (task : TaskType) : String :=
  if task = TaskType.sleeping then "sleeping"
  else if task = TaskType.eating then "eating"
  else if task = TaskType.socializing then "talking"
  else "working"

/-- Client-store `assignTask` (useDwarves.tsx lines 107-126): mirrors the
task onto `currentTask`/`state`, sets the target and animation. -/
def assignTaskClient (dwarves : List ClientDwarf) (id : Nat) (task : TaskType)
    (target : Option Point2D) : List ClientDwarf :=
  if (dwarves.find? (fun d => d.id == id)).isSome then
    dwarves.map (fun d =>
      if d.id == id then
        { d with currentTask := some task, state := task, target := target,
                 animation := taskAnimation task }
      else d)
  else dwarves

/-- `updateDialogue` (useDwarves.tsx lines 243-252). -/
def updateDialogue (dwarves : List ClientDwarf) (id : Nat) (dialogue : String)
    (visible : Bool) : List ClientDwarf :=
  dwarves.map (fun d =>
    if d.id == id then
      { d with dialogueVisible := visible, currentDialogue := dialogue,
               animation := if visible then "talking" else d.animation }
    else d)

/-! ## Client building store (useBuilding.tsx) -/

/-- Client resource record (fields read by `harvestResource` and the critical
need checks). -/
structure ClientResource where
  id : Nat
  type : ResourceType
  x : Int
  y : Int
  quantity : Rat
  regenerate : Bool
  isBeingHarvested : Bool
  harvestedBy : Option Nat
deriving DecidableEq, Repr

/-- Client building record (fields read by the critical need checks). -/
structure ClientBuilding where
  id : Nat
  type : BuildingType
  x : Int
  y : Int
  complete : Bool
deriving DecidableEq, Repr

/-- The slice of the `useBuilding` store state the modelled actions touch. -/
structure BuildingState where
  world : Option GameWorld
  buildings : List ClientBuilding
  resources : List ClientResource
deriving DecidableEq, Repr

/-- `harvestResource` (useBuilding.tsx lines 194-221): decrement quantity
(floored at 0); only when the new quantity is 0 AND the resource does not
regenerate is the grid cell reverted to terrain (walkable untouched). -/
def harvestResource (st : BuildingState) (id : Nat) (amount : Rat)
    (dwarfId : Option Nat) : BuildingState :=
  match st.resources.find? (fun r => r.id == id) with
  | none => st
  | some r =>
    let newQuantity := max 0 (r.quantity - amount)
    let ur := { r with quantity := newQuantity,
                       isBeingHarvested := dwarfId.isSome, harvestedBy := dwarfId }
    let world' :=
      if newQuantity = 0 ∧ r.regenerate = false then
        match st.world with
        | some wg =>
          if 0 ≤ r.x ∧ r.x < wg.width ∧ 0 ≤ r.y ∧ r.y < wg.height then
            some (setCellWith wg r.x r.y (fun c =>
              { c with type := CellType.terrain, resourceId := none }))
          else some wg
        | none => none
      else st.world
    { st with world := world',
              resources := st.resources.map (fun q => if q.id == id then ur else q) }

/-! ## Critical-need checks (AIControls.tsx)

The file holds two components with a `checkCriticalNeeds` each. The first
(lines 126-178) runs all three threshold branches in sequence with no early
return; the second (lines 592-681) returns after the first branch taken.
The awaited `getDwarfThoughts` strings are opaque parameters; `setTimeout`
dialogue hiding is a later effect outside the check. -/

/-- First `checkCriticalNeeds` (AIControls.tsx lines 126-178). Thresholds:
hunger > 80 (unless already eating), energy < 20 (unless already sleeping),
happiness < 30. The socializing branch fires when `Math.random() > 0.7`
(modelled by `randSocial`) and a dwarf within Manhattan distance < 5 exists;
`pickRandom` is modelled by the picked index `pickIdx`. All guards read the
`dwarf` argument (a pre-check snapshot), so several branches can fire in one
call. -/
def checkCriticalNeedsV1 (dwarves : List ClientDwarf) (dwarf : ClientDwarf)
    (msgHunger msgEnergy msgHappiness : String) (randSocial : Rat)
    (pickIdx : Nat) : List ClientDwarf :=
  let st1 :=
    if dwarf.hunger > 80 ∧ dwarf.state ≠ TaskType.eating then
      assignTaskClient (updateDialogue dwarves dwarf.id msgHunger true)
        dwarf.id TaskType.eating none
    else dwarves
  let st2 :=
    if dwarf.energy < 20 ∧ dwarf.state ≠ TaskType.sleeping then
      assignTaskClient (updateDialogue st1 dwarf.id msgEnergy true)
        dwarf.id TaskType.sleeping none
    else st1
  if dwarf.happiness < 30 then
    let st3 := updateDialogue st2 dwarf.id msgHappiness true
    if randSocial > mkRat 7 10 then
      let otherDwarves := dwarves.filter (fun d =>
        d.id != dwarf.id ∧
          getManhattanDistance ⟨dwarf.x, dwarf.y⟩ ⟨d.x, d.y⟩ < 5)
      match otherDwarves.get? pickIdx with
      | some _ => assignTaskClient st3 dwarf.id TaskType.socializing none
      | none => st3
    else st3
  else st2

/-- Second `checkCriticalNeeds` (AIControls.tsx lines 592-681). Thresholds
`CRITICAL_HUNGER_THRESHOLD = 70` (≥), `CRITICAL_ENERGY_THRESHOLD = 30` (≤),
`CRITICAL_HAPPINESS_THRESHOLD = 30` (≤); handled hunger-first with an early
return per branch, so at most one override is applied. Returns the handled
flag and the updated dwarf list. -/
def checkCriticalNeedsV2 (dwarves : List ClientDwarf)
    (buildings : List ClientBuilding) (resources : List ClientResource)
    (dwarf : ClientDwarf) (msgHunger msgEnergy msgHappiness : String) :
    Bool × List ClientDwarf :=
  let hasCriticalHunger := dwarf.hunger ≥ 70
  let hasCriticalEnergy := dwarf.energy ≤ 30
  let hasCriticalHappiness := dwarf.happiness ≤ 30
  if ¬hasCriticalHunger ∧ ¬hasCriticalEnergy ∧ ¬hasCriticalHappiness then
    (false, dwarves)
  else if hasCriticalHunger then
    let st1 := updateDialogue dwarves dwarf.id msgHunger true
    let st2 :=
      match resources.find? (fun r => r.type == ResourceType.food) with
      | some foodSource =>
        assignTaskClient st1 dwarf.id TaskType.eating (some ⟨foodSource.x, foodSource.y⟩)
      | none =>
        match buildings.find? (fun b => b.type == BuildingType.table && b.complete) with
        | some table =>
          assignTaskClient st1 dwarf.id TaskType.eating (some ⟨table.x, table.y⟩)
        | none => st1
    (true, st2)
  else if hasCriticalEnergy then
    let st1 := updateDialogue dwarves dwarf.id msgEnergy true
    let st2 :=
      match buildings.find? (fun b => b.type == BuildingType.bed && b.complete) with
      | some bed =>
        assignTaskClient st1 dwarf.id TaskType.sleeping (some ⟨bed.x, bed.y⟩)
      | none => assignTaskClient st1 dwarf.id TaskType.sleeping none
    (true, st2)
  else
    let st1 := updateDialogue dwarves dwarf.id msgHappiness true
    let st2 :=
      match dwarves.find? (fun d =>
          d.id != dwarf.id ∧ |d.x - dwarf.x| + |d.y - dwarf.y| < 5) with
      | some nearbyDwarf =>
        assignTaskClient st1 dwarf.id TaskType.socializing
          (some ⟨nearbyDwarf.x, nearbyDwarf.y⟩)
      | none => st1
    (true, st2)

/-! ## Structural world agreement (for the determinism claim) -/

/-- Two cells agree on coordinates, kind, walkable flag, and elevation. -/
def cellsAgree (c1 c2 : GridCell) : Prop :=
  c1.x = c2.x ∧ c1.y = c2.y ∧ c1.type = c2.type ∧
    c1.walkable = c2.walkable ∧ c1.elevation = c2.elevation

/-- Pointwise agreement of optional cells. -/
def cellOptAgree : Option GridCell → Option GridCell → Prop
  | none, none => True
  | some c1, some c2 => cellsAgree c1 c2
  | _, _ => False

/-- Structural identity of two worlds: same dimensions and agreeing cells
everywhere. -/
def worldsAgree (w1 w2 : GameWorld) : Prop :=
  w1.width = w2.width ∧ w1.height = w2.height ∧
    ∀ x y : Int, cellOptAgree (cellAt w1 x y) (cellAt w2 x y)

/-! ## Sequences of need operations (for the clamping invariant) -/

/-- A store-level need operation: a scheduler tick delta
(`updateNeeds`) or a satisfaction event (`satisfyNeed`), with arbitrary
rational deltas. -/
inductive NeedOp where
  | update (id : Nat) (hunger energy happiness : Rat)
  | satisfy (id : Nat) (needType : NeedType) (amount : Rat)
deriving DecidableEq, Repr

/-- Apply one need operation to the dwarf list. -/
def applyNeedOp (dwarves : List ClientDwarf) : NeedOp → List ClientDwarf
  | NeedOp.update id h e p => updateNeeds dwarves id h e p
  | NeedOp.satisfy id t amt => satisfyNeed dwarves id t amt

/-- Apply a finite sequence of need operations in order. -/
def applyNeedOps (ops : List NeedOp) (dwarves : List ClientDwarf) : List ClientDwarf :=
  ops.foldl applyNeedOp dwarves

/-- All three needs of a dwarf lie within [0, 100]. -/
def needsInRange (d : ClientDwarf) : Prop :=
  0 ≤ d.hunger ∧ d.hunger ≤ 100 ∧ 0 ≤ d.energy ∧ d.energy ≤ 100 ∧
    0 ≤ d.happiness ∧ d.happiness ≤ 100

instance (d : ClientDwarf) : Decidable (needsInRange d) := by
  unfold needsInRange; infer_instance

/-! ## Concrete fixtures used by witnesses and counterexamples -/

/-- A 4x4 hand-built world: all terrain except a resource cell at (2, 2). -/
def resourceWorld : GameWorld :=
  { width := 4, height := 4,
    grid :=
      (List.range 4).map (fun y =>
        (List.range 4).map (fun x =>
          if x == 2 && y == 2 then
            { x := (x : Int), y := (y : Int), type := CellType.resource,
              walkable := true, resourceId := some 1, elevation := 0 }
          else
            { x := (x : Int), y := (y : Int), type := CellType.terrain,
              walkable := true, elevation := 0 })) }

/-- A regenerating wood resource of quantity 5 at (2, 2). -/
def regenResource : Resource :=
  { id := 1, type := ResourceType.wood, x := 2, y := 2, quantity := 5,
    regenerate := true }

/-- Server storage holding `regenResource` with its cell marked on
`resourceWorld`. -/
def storageWithRegen : Storage :=
  { emptyStorage with
    resourceStore := [(1, regenResource)],
    resourceCounter := 2,
    worldGrid := some resourceWorld }

/-- A task fixture. -/
def miningTask : Task :=
  { id := 1, type := TaskType.mining, target := some ⟨3, 3⟩, priority := 1,
    assignedTo := none, completed := false, progress := 0 }

/-- A server dwarf fixture. -/
def dwarfUrist : Dwarf :=
  { id := 2, health := 100, hunger := 10, energy := 90, happiness := 80,
    x := 5, y := 5, currentTask := none, state := TaskType.idle }

/-- Storage holding `miningTask` and `dwarfUrist`. -/
def storageWithTask : Storage :=
  { emptyStorage with
    taskStore := [(1, miningTask)],
    taskCounter := 2,
    dwarfStore := [(2, dwarfUrist)],
    dwarfCounter := 3 }

/-- A client dwarf with every need critical and state idle. -/
def criticalDwarf : ClientDwarf :=
  { id := 1, x := 5, y := 5, hunger := 90, energy := 10, happiness := 10,
    currentTask := none, state := TaskType.idle, target := none,
    animation := "idle", currentDialogue := "", dialogueVisible := false }

/-- A client food resource fixture. -/
def clientFood : ClientResource :=
  { id := 7, type := ResourceType.food, x := 3, y := 4, quantity := 20,
    regenerate := true, isBeingHarvested := false, harvestedBy := none }

/-- A client dwarf with mid-range needs. -/
def clientDwarfMid : ClientDwarf :=
  { id := 1, x := 0, y := 0, hunger := 50, energy := 50, happiness := 50,
    currentTask := none, state := TaskType.idle, target := none,
    animation := "idle", currentDialogue := "", dialogueVisible := false }

/-- A sample operation sequence with extreme deltas. -/
def needOpsSample : List NeedOp :=
  [NeedOp.update 1 200 (-500) 3, NeedOp.satisfy 1 NeedType.energy 1000,
   NeedOp.satisfy 1 NeedType.hunger (-400), NeedOp.update 2 (-1) (-1) (-1)]

/-- A regenerating client wood resource at (2, 2). -/
def clientWoodRegen : ClientResource :=
  { id := 1, type := ResourceType.wood, x := 2, y := 2, quantity := 5,
    regenerate := true, isBeingHarvested := false, harvestedBy := none }

/-- A non-regenerating client stone resource at (1, 1). -/
def clientStone : ClientResource :=
  { id := 2, type := ResourceType.stone, x := 1, y := 1, quantity := 3,
    regenerate := false, isBeingHarvested := false, harvestedBy := none }

/-- A client building-store state over `resourceWorld`. -/
def buildingStateFix : BuildingState :=
  { world := some resourceWorld, buildings := [],
    resources := [clientWoodRegen, clientStone] }

/-! # Lemmas and claim theorems -/

/-! ## List and grid lemmas -/

theorem get?_modifyNth {α : Type} (f : α → α) :
    ∀ (i j : Nat) (l : List α),
      (modifyNth f i l).get? j = if i = j then (l.get? j).map f else l.get? j := by
  intro i j l
  induction l generalizing i j with
  | nil => cases i <;> cases j <;> simp [modifyNth]
  | cons a l ih =>
    cases i with
    | zero => cases j <;> simp [modifyNth]
    | succ n =>
      cases j with
      | zero => simp [modifyNth]
      | succ m => simpa [modifyNth, Nat.succ_inj] using ih n m

theorem cellAt_setCellWith_self (w : GameWorld) (x y : Int) (f : GridCell → GridCell)
    (hx : 0 ≤ x) (hy : 0 ≤ y) :
    cellAt (setCellWith w x y f) x y = (cellAt w x y).map f := by
  simp only [cellAt, setCellWith, if_pos (And.intro hx hy), get?_modifyNth, if_pos rfl]
  cases w.grid.get? y.toNat with
  | none => rfl
  | some row => simpa using get?_modifyNth f x.toNat x.toNat row

theorem cellsAgree_refl (c : GridCell) : cellsAgree c c :=
  ⟨rfl, rfl, rfl, rfl, rfl⟩

theorem cellOptAgree_refl (o : Option GridCell) : cellOptAgree o o := by
  cases o with
  | none => trivial
  | some c => exact cellsAgree_refl c

/-- The early guards of `findPath` on an installed world: out-of-bounds
endpoints or equal endpoints short-circuit to the empty path. -/
theorem findPath_guard_empty (w : GameWorld) (s e : Point2D)
    (h : s = e ∨ s.x < 0 ∨ s.x ≥ w.width ∨ s.y < 0 ∨ s.y ≥ w.height ∨
      e.x < 0 ∨ e.x ≥ w.width ∨ e.y < 0 ∨ e.y ≥ w.height) :
    findPath (some w) s e = [] := by
  simp only [findPath]
  by_cases hoob : s.x < 0 ∨ s.x ≥ w.width ∨ s.y < 0 ∨ s.y ≥ w.height ∨
      e.x < 0 ∨ e.x ≥ w.width ∨ e.y < 0 ∨ e.y ≥ w.height
  · rw [if_pos hoob]
  · rw [if_neg hoob]
    have hse : s = e := by tauto
    rw [if_pos ⟨congrArg Point2D.x hse, congrArg Point2D.y hse⟩]

/-! ## C9: findPath without a generated world -/

/-- C9: when no world grid has been generated, `findPath(start, end)` returns
the two-element list `[start, end]` for every pair of inputs, with no bounds,
adjacency, or walkability checks. -/
theorem findPath_no_world_direct (s e : Point2D) :
    findPath none s e = [s, e] := rfl

/-! ## C7: empty path for identical or out-of-bounds endpoints -/

/-- C7: on every generated world, `findPath` returns the empty path whenever
the start equals the goal, and whenever the start or the goal lies outside
the grid bounds. -/
theorem findPath_trivial_endpoints_empty (st : Storage) (w h seed : Int)
    (s e : Point2D)
    (hcase : s = e ∨ s.x < 0 ∨ s.x ≥ w ∨ s.y < 0 ∨ s.y ≥ h ∨
      e.x < 0 ∨ e.x ≥ w ∨ e.y < 0 ∨ e.y ≥ h) :
    findPath (some (generateWorld st w h seed).1) s e = [] :=
  findPath_guard_empty (generateWorld st w h seed).1 s e hcase

/-- C7 witness: a concrete generated world with `start = goal = (1, 1)`. -/
theorem findPath_trivial_endpoints_empty_witness :
    findPath (some (generateWorld emptyStorage 10 10 0).1) ⟨1, 1⟩ ⟨1, 1⟩ = [] :=
  findPath_trivial_endpoints_empty emptyStorage 10 10 0 ⟨1, 1⟩ ⟨1, 1⟩ (Or.inl rfl)

/-! ## C4: determinism of world generation -/

/-- C4: `generateWorld` is a pure function of width, height, seed, and the
starting store state — the embedding consults only the seeded LCG, never an
outside randomness source — so two runs from identical arguments and store
state produce structurally identical worlds: dimensions and every cell's
coordinates, kind, walkable flag, and elevation agree. -/
theorem generateWorld_deterministic (st : Storage) (w h seed : Int) :
    worldsAgree (generateWorld st w h seed).1 (generateWorld st w h seed).1 :=
  ⟨rfl, rfl, fun x y => cellOptAgree_refl (cellAt (generateWorld st w h seed).1 x y)⟩

/-! ## C5: assignTask -/

/-- C5: `assignTask(taskId, dwarfId)` returns the not-found result
(`undefined`) with the storage untouched when either id is absent; on success
the task's `assignedTo` becomes the dwarf id, and the dwarf's `currentTask`
and `state` both become the task's kind. -/
theorem assignTask_spec (st : Storage) (taskId dwarfId : Nat) :
    ((lookupId st.taskStore taskId = none ∨ lookupId st.dwarfStore dwarfId = none) →
      assignTask st taskId dwarfId = (none, st)) ∧
    (∀ task dwarf, lookupId st.taskStore taskId = some task →
      lookupId st.dwarfStore dwarfId = some dwarf →
      assignTask st taskId dwarfId =
        (some { task with assignedTo := some dwarfId },
          { st with
            taskStore := setId st.taskStore taskId
              { task with assignedTo := some dwarfId },
            dwarfStore := setId st.dwarfStore dwarfId
              { dwarf with currentTask := some task.type, state := task.type } })) := by
  constructor
  · intro habs
    cases htask : lookupId st.taskStore taskId with
    | none => simp [assignTask, htask]
    | some task =>
      cases hdwarf : lookupId st.dwarfStore dwarfId with
      | none => simp [assignTask, htask, hdwarf]
      | some dwarf =>
        rcases habs with h | h
        · rw [htask] at h; exact absurd h (by simp)
        · rw [hdwarf] at h; exact absurd h (by simp)
  · intro task dwarf htask hdwarf
    simp [assignTask, htask, hdwarf]

/-- C5 witness: on `storageWithTask`, an absent task id leaves the store
unchanged, and assigning task 1 to dwarf 2 mirrors the mining kind onto the
dwarf. -/
theorem assignTask_spec_witness :
    assignTask storageWithTask 5 2 = (none, storageWithTask) ∧
    assignTask storageWithTask 1 2 =
      (some { miningTask with assignedTo := some 2 },
        { storageWithTask with
          taskStore := setId storageWithTask.taskStore 1
            { miningTask with assignedTo := some 2 },
          dwarfStore := setId storageWithTask.dwarfStore 2
            { dwarfUrist with currentTask := some TaskType.mining,
                              state := TaskType.mining } }) :=
  ⟨(assignTask_spec storageWithTask 5 2).1 (Or.inl (by decide)),
   (assignTask_spec storageWithTask 1 2).2 miningTask dwarfUrist
     (by decide) (by decide)⟩

/-! ## C8: world-generation route rejects out-of-range dimensions -/

/-- C8: the world-generation endpoint rejects any request whose width or
height lies outside [10, 100]: it answers the invalid-dimensions error and
leaves the storage (hence the installed world) unchanged. -/
theorem worldGenerateRoute_rejects_bad_dims (st : Storage) (w h : Int)
    (seed : Option Int) (randSeed : Int)
    (hbad : w < 10 ∨ w > 100 ∨ h < 10 ∨ h > 100) :
    worldGenerateRoute st (some w) (some h) seed randSeed =
      (WorldGenResponse.invalidDimensions, st) := by
  simp only [worldGenerateRoute, Option.getD_some]
  rw [if_pos (by tauto)]

/-- C8 witness: a 5-wide request is rejected without touching the storage. -/
theorem worldGenerateRoute_rejects_bad_dims_witness :
    worldGenerateRoute emptyStorage (some 5) (some 50) (some 42) 7 =
      (WorldGenResponse.invalidDimensions, emptyStorage) :=
  worldGenerateRoute_rejects_bad_dims emptyStorage 5 50 (some 42) 7
    (Or.inl (by decide))

/-! ## C6: need clamping invariant -/

theorem clamp_nonneg (x : Rat) : 0 ≤ max 0 (min 100 x) := le_max_left 0 _

theorem clamp_le_hundred (x : Rat) : max 0 (min 100 x) ≤ 100 :=
  max_le (by norm_num) (min_le_left 100 x)

theorem updateNeeds_preserves (dwarves : List ClientDwarf) (id : Nat)
    (dh de dp : Rat) (hall : ∀ d ∈ dwarves, needsInRange d) :
    ∀ d ∈ updateNeeds dwarves id dh de dp, needsInRange d := by
  intro d hd
  simp only [updateNeeds, List.mem_map] at hd
  obtain ⟨d0, hd0, rfl⟩ := hd
  by_cases hid : (d0.id == id) = true
  · simp only [hid, if_true]
    exact ⟨clamp_nonneg _, clamp_le_hundred _, clamp_nonneg _, clamp_le_hundred _,
      clamp_nonneg _, clamp_le_hundred _⟩
  · simp only [hid, if_false]
    exact hall d0 hd0

theorem satisfyNeed_preserves (dwarves : List ClientDwarf) (id : Nat)
    (t : NeedType) (amt : Rat) (hall : ∀ d ∈ dwarves, needsInRange d) :
    ∀ d ∈ satisfyNeed dwarves id t amt, needsInRange d := by
  intro d hd
  rw [satisfyNeed] at hd
  cases hfind : dwarves.find? (fun d => d.id == id) with
  | none => rw [hfind] at hd; exact hall d hd
  | some d1 =>
    rw [hfind] at hd
    have hd1 : needsInRange d1 := hall d1 (List.mem_of_find?_eq_some hfind)
    simp only [List.mem_map] at hd
    obtain ⟨d0, hd0, rfl⟩ := hd
    by_cases hid : (d0.id == id) = true
    · simp only [hid, if_true]
      obtain ⟨h1, h2, h3, h4, h5, h6⟩ := hd1
      cases t with
      | hunger => exact ⟨clamp_nonneg _, clamp_le_hundred _, h3, h4, h5, h6⟩
      | energy => exact ⟨h1, h2, clamp_nonneg _, clamp_le_hundred _, h5, h6⟩
      | happiness => exact ⟨h1, h2, h3, h4, clamp_nonneg _, clamp_le_hundred _⟩
    · simp only [hid, if_false]
      exact hall d0 hd0

/-- C6: for every dwarf list whose needs start within [0, 100], any finite
sequence of `updateNeeds` / `satisfyNeed` operations with arbitrary positive
or negative deltas leaves all three needs of every dwarf within [0, 100]. -/
theorem needs_stay_in_range (ops : List NeedOp) (dwarves : List ClientDwarf)
    (hall : ∀ d ∈ dwarves, needsInRange d) :
    ∀ d ∈ applyNeedOps ops dwarves, needsInRange d := by
  induction ops generalizing dwarves with
  | nil => simpa [applyNeedOps] using hall
  | cons op rest ih =>
    intro d hd
    rw [applyNeedOps, List.foldl_cons] at hd
    have hstep : ∀ d ∈ applyNeedOp dwarves op, needsInRange d := by
      cases op with
      | update id dh de dp => exact updateNeeds_preserves dwarves id dh de dp hall
      | satisfy id t amt => exact satisfyNeed_preserves dwarves id t amt hall
    exact ih (applyNeedOp dwarves op) hstep d hd

/-- C6 witness: a concrete dwarf and a sequence with deltas far outside
[0, 100] keeps the needs in range. -/
theorem needs_stay_in_range_witness :
    (∀ d ∈ [clientDwarfMid], needsInRange d) ∧
    ∀ d ∈ applyNeedOps needOpsSample [clientDwarfMid], needsInRange d :=
  ⟨by decide, needs_stay_in_range needOpsSample [clientDwarfMid] (by decide)⟩

/-! ## C3: depleted resources and the grid -/

/-- C3 counterexample: updating a REGENERATING resource (`regenResource`,
`regenerate = true`) to quantity 0 through the server `updateResource` clears
its grid cell to terrain — refuting the claim that no update operation ever
clears a regenerating resource from the grid. -/
theorem updateResource_clears_regenerating :
    regenResource.regenerate = true ∧
    (((updateResource storageWithRegen 1 { quantity := some 0 }).2.worldGrid.bind
        (fun wg => cellAt wg 2 2)).map GridCell.type) = some CellType.terrain ∧
    ((storageWithRegen.worldGrid.bind (fun wg => cellAt wg 2 2)).map GridCell.type) =
      some CellType.resource := by
  decide

/-- C3 amended: when a resource's quantity reaches 0, the client
`harvestResource` clears the cell to terrain only for non-regenerating
resources and leaves the world untouched for regenerating ones; the server
`updateResource`, however, resets the depleted resource's cell to walkable
terrain regardless of the `regenerate` flag. -/
theorem depleted_resource_grid_spec :
    (∀ (st : Storage) (id : Nat) (p : ResourcePatch) (r : Resource),
      lookupId st.resourceStore id = some r →
      (mergeResource r p).quantity ≤ 0 →
      ∀ wg, st.worldGrid = some wg →
      (0 ≤ (mergeResource r p).x ∧ (mergeResource r p).x < wg.width ∧
        0 ≤ (mergeResource r p).y ∧ (mergeResource r p).y < wg.height) →
      ∀ c, ((updateResource st id p).2.worldGrid.bind
          (fun wg' => cellAt wg' (mergeResource r p).x (mergeResource r p).y)) = some c →
        c.type = CellType.terrain ∧ c.walkable = true) ∧
    (∀ (bst : BuildingState) (id : Nat) (amount : Rat) (did : Option Nat)
        (r : ClientResource),
      bst.resources.find? (fun q => q.id == id) = some r →
      r.regenerate = true →
      (harvestResource bst id amount did).world = bst.world) ∧
    (∀ (bst : BuildingState) (id : Nat) (amount : Rat) (did : Option Nat)
        (r : ClientResource),
      bst.resources.find? (fun q => q.id == id) = some r →
      r.regenerate = false →
      r.quantity ≤ amount →
      ∀ wg, bst.world = some wg →
      (0 ≤ r.x ∧ r.x < wg.width ∧ 0 ≤ r.y ∧ r.y < wg.height) →
      ∀ c, ((harvestResource bst id amount did).world.bind
          (fun wg' => cellAt wg' r.x r.y)) = some c →
        c.type = CellType.terrain ∧ c.resourceId = none) := by
  refine ⟨?_, ?_, ?_⟩
  · intro st id p r hlook hqle wg hwg hbounds c hc
    simp only [updateResource, hlook] at hc
    rw [if_pos hqle] at hc
    have hwg' : ({ st with resourceStore := setId st.resourceStore id (mergeResource r p) } :
        Storage).worldGrid = some wg := hwg
    rw [hwg'] at hc
    try dsimp only at hc
    rw [if_pos hbounds] at hc
    simp only [Option.some_bind] at hc
    rw [cellAt_setCellWith_self wg _ _ _ hbounds.1 hbounds.2.2.1] at hc
    cases hcell : cellAt wg (mergeResource r p).x (mergeResource r p).y with
    | none => rw [hcell] at hc; simp at hc
    | some c0 =>
      rw [hcell] at hc
      simp only [Option.map_some'] at hc
      cases hc
      exact ⟨rfl, rfl⟩
  · intro bst id amount did r hfind hreg
    simp only [harvestResource, hfind]
    rw [if_neg (by simp [hreg])]
  · intro bst id amount did r hfind hreg hqty wg hwg hbounds c hc
    have hq0 : max 0 (r.quantity - amount) = 0 :=
      max_eq_left (by linarith)
    simp only [harvestResource, hfind] at hc
    rw [if_pos ⟨hq0, hreg⟩, hwg] at hc
    try dsimp only at hc
    rw [if_pos hbounds] at hc
    simp only [Option.some_bind] at hc
    rw [cellAt_setCellWith_self wg _ _ _ hbounds.1 hbounds.2.2.1] at hc
    cases hcell : cellAt wg r.x r.y with
    | none => rw [hcell] at hc; simp at hc
    | some c0 =>
      rw [hcell] at hc
      simp only [Option.map_some'] at hc
      cases hc
      exact ⟨rfl, rfl⟩

/-- C3 amended witness: the server update clears the regenerating wood's cell
to walkable terrain; the client harvest leaves the world untouched for the
regenerating resource and clears the cell for the depleted non-regenerating
stone. -/
theorem depleted_resource_grid_spec_witness :
    (∀ c, ((updateResource storageWithRegen 1 { quantity := some 0 }).2.worldGrid.bind
        (fun wg' => cellAt wg' (mergeResource regenResource { quantity := some 0 }).x
          (mergeResource regenResource { quantity := some 0 }).y)) = some c →
      c.type = CellType.terrain ∧ c.walkable = true) ∧
    (harvestResource buildingStateFix 1 2 none).world = buildingStateFix.world ∧
    (∀ c, ((harvestResource buildingStateFix 2 10 (some 1)).world.bind
        (fun wg' => cellAt wg' clientStone.x clientStone.y)) = some c →
      c.type = CellType.terrain ∧ c.resourceId = none) :=
  ⟨depleted_resource_grid_spec.1 storageWithRegen 1 { quantity := some 0 }
      regenResource (by decide) (by decide) resourceWorld (by decide) (by decide),
   depleted_resource_grid_spec.2.1 buildingStateFix 1 2 none clientWoodRegen
      (by decide) (by decide),
   depleted_resource_grid_spec.2.2 buildingStateFix 2 10 (some 1) clientStone
      (by decide) (by decide) (by decide) resourceWorld (by decide) (by decide)⟩

/-! ## C2: critical-need override priority -/

/-- Any member of an `assignTaskClient` result carrying the targeted id has
the assigned task mirrored onto `currentTask` and `state`. -/
theorem assignTaskClient_mem_id (l : List ClientDwarf) (id : Nat) (task : TaskType)
    (tgt : Option Point2D) (d : ClientDwarf)
    (hd : d ∈ assignTaskClient l id task tgt) (hid : d.id = id) :
    d.currentTask = some task ∧ d.state = task := by
  rw [assignTaskClient] at hd
  by_cases hfind : (l.find? (fun q => q.id == id)).isSome
  · rw [if_pos hfind] at hd
    simp only [List.mem_map] at hd
    obtain ⟨d0, hd0, rfl⟩ := hd
    by_cases h0 : (d0.id == id) = true
    · simp [h0]
    · exfalso
      rw [if_neg (by simpa using h0)] at hid
      exact h0 (by simpa using hid)
  · rw [if_neg hfind] at hd
    exfalso
    exact hfind (List.find?_isSome.mpr ⟨d, hd, by simpa using hid⟩)

/-- C2 counterexample: a dwarf with hunger 90 > 80, energy 10 < 20 and
happiness 10 < 30 run through the FIRST `checkCriticalNeeds`
(AIControls.tsx lines 126-178, socializing roll 0 ≤ 0.7) ends the check
assigned the Sleeping task, not Eating: the hunger branch and the energy
branch both fire, and the later Sleeping assignment overwrites Eating. -/
theorem checkCriticalNeedsV1_ends_sleeping :
    criticalDwarf.hunger > 80 ∧ criticalDwarf.energy < 20 ∧
    criticalDwarf.happiness < 30 ∧
    ((checkCriticalNeedsV1 [criticalDwarf] criticalDwarf "" "" "" 0 0).head?.map
      (fun d => d.currentTask)) = some (some TaskType.sleeping) ∧
    TaskType.sleeping ≠ TaskType.eating := by
  decide

/-- C2 amended: the SECOND `checkCriticalNeeds` (AIControls.tsx lines
592-681) checks thresholds hunger-first with an early return, so a worker
past all three thresholds receives at most one override; whenever a food
resource exists it is the Eating task — never Sleeping or Socializing. -/
theorem checkCriticalNeedsV2_hunger_first (dwarves : List ClientDwarf)
    (buildings : List ClientBuilding) (resources : List ClientResource)
    (dwarf : ClientDwarf) (mh me mp : String)
    (hh : dwarf.hunger ≥ 70) (f : ClientResource)
    (hfood : resources.find? (fun r => r.type == ResourceType.food) = some f) :
    (checkCriticalNeedsV2 dwarves buildings resources dwarf mh me mp).1 = true ∧
    ∀ d ∈ (checkCriticalNeedsV2 dwarves buildings resources dwarf mh me mp).2,
      d.id = dwarf.id →
        d.currentTask = some TaskType.eating ∧ d.state = TaskType.eating := by
  have hcond : ¬(¬dwarf.hunger ≥ 70 ∧ ¬dwarf.energy ≤ 30 ∧ ¬dwarf.happiness ≤ 30) :=
    fun hcon => hcon.1 hh
  simp only [checkCriticalNeedsV2]
  rw [if_neg hcond, if_pos hh, hfood]
  exact ⟨rfl, fun d hd hid =>
    assignTaskClient_mem_id (updateDialogue dwarves dwarf.id mh true) dwarf.id
      TaskType.eating (some ⟨f.x, f.y⟩) d hd hid⟩

/-- C2 amended witness: the all-critical dwarf with a food resource present
is flagged handled and ends the check assigned Eating. -/
theorem checkCriticalNeedsV2_hunger_first_witness :
    (checkCriticalNeedsV2 [criticalDwarf] [] [clientFood] criticalDwarf "" "" "").1 = true ∧
    ∀ d ∈ (checkCriticalNeedsV2 [criticalDwarf] [] [clientFood] criticalDwarf "" "" "").2,
      d.id = criticalDwarf.id →
        d.currentTask = some TaskType.eating ∧ d.state = TaskType.eating :=
  checkCriticalNeedsV2_hunger_first [criticalDwarf] [] [clientFood] criticalDwarf
    "" "" "" (by decide) clientFood (by decide)

/-! ## C1: path validity of findPath results -/

/-- C1 (code bug evaluation): on the generated 10x10 world from seed 0 over an
empty store — every cell walkable — `findPath((0,0), (2,0))` returns the
single-element list `[(2,0)]`: the goal cell alone, at Manhattan distance 2
from the start, so the first cell of this non-empty result is NOT orthogonally
adjacent to the start. The reconstruction loop looks parents up in the
already-shrunken open set, falls back to a parentless stub, and so truncates
every path to just the goal. -/
theorem findPath_result_not_adjacent :
    findPath (some (generateWorld emptyStorage 10 10 0).1) ⟨0, 0⟩ ⟨2, 0⟩ = [⟨2, 0⟩] ∧
    getManhattanDistance ⟨2, 0⟩ ⟨0, 0⟩ ≠ 1 ∧
    walkableAt (generateWorld emptyStorage 10 10 0).1 1 0 = true ∧
    walkableAt (generateWorld emptyStorage 10 10 0).1 2 0 = true := by
  decide

/-! ## C10: elevation nonnegativity and the water branch -/

theorem lcgNext_bounds (s : Int) (hs : 0 ≤ s) :
    0 ≤ lcgNext s ∧ lcgNext s < 233280 := by
  have hmul : 0 ≤ s * 9301 := mul_nonneg hs (by norm_num)
  have ha : 0 ≤ s * 9301 + 49297 := by omega
  unfold lcgNext
  rw [Int.tmod_eq_emod ha (by norm_num)]
  exact ⟨Int.emod_nonneg _ (by norm_num), Int.emod_lt_of_pos _ (by norm_num)⟩

theorem lcgDraw_bounds (s : Int) (hs : 0 ≤ s) :
    0 ≤ (lcgDraw s).1 ∧ (lcgDraw s).1 < 1 ∧ 0 ≤ (lcgDraw s).2 := by
  obtain ⟨h1, h2⟩ := lcgNext_bounds s hs
  have e1 : (lcgDraw s).1 = mkRat (lcgNext s) 233280 := rfl
  have e2 : (lcgDraw s).2 = lcgNext s := rfl
  refine ⟨?_, ?_, e2 ▸ h1⟩
  · rw [e1, Rat.mkRat_eq_div]
    apply div_nonneg _ (by norm_num)
    exact_mod_cast h1
  · rw [e1, Rat.mkRat_eq_div, div_lt_one (by norm_num)]
    exact_mod_cast h2

theorem mkHill_bounds (w h s : Int) (hs : 0 ≤ s) :
    1 ≤ (mkHill w h s).1.height ∧ 0 ≤ (mkHill w h s).2 := by
  have b1 := lcgDraw_bounds s hs
  have b2 := lcgDraw_bounds _ b1.2.2
  have b3 := lcgDraw_bounds _ b2.2.2
  have b4 := lcgDraw_bounds _ b3.2.2
  have e1 : (mkHill w h s).1.height =
      1 + ⌊(lcgDraw (lcgDraw (lcgDraw (lcgDraw s).2).2).2).1 * 3⌋ := rfl
  have e2 : (mkHill w h s).2 = (lcgDraw (lcgDraw (lcgDraw (lcgDraw s).2).2).2).2 := rfl
  constructor
  · rw [e1]
    have hfl : (0 : Int) ≤ ⌊(lcgDraw (lcgDraw (lcgDraw (lcgDraw s).2).2).2).1 * 3⌋ :=
      Int.floor_nonneg.mpr (mul_nonneg b4.1 (by norm_num))
    omega
  · rw [e2]; exact b4.2.2

theorem mkHills_bounds (w h : Int) (n : Nat) :
    ∀ s : Int, 0 ≤ s →
      (∀ hill ∈ (mkHills w h n s).1, 1 ≤ hill.height) ∧ 0 ≤ (mkHills w h n s).2 := by
  induction n with
  | zero => exact fun s hs => ⟨by simp [mkHills], hs⟩
  | succ n ih =>
    intro s hs
    have hb := mkHill_bounds w h s hs
    have ihb := ih _ hb.2
    have ecell : (mkHills w h (n + 1) s).1 =
        (mkHill w h s).1 :: (mkHills w h n (mkHill w h s).2).1 := rfl
    have eseed : (mkHills w h (n + 1) s).2 = (mkHills w h n (mkHill w h s).2).2 := rfl
    refine ⟨?_, eseed ▸ ihb.2⟩
    intro hill hmem
    rw [ecell] at hmem
    rcases List.mem_cons.mp hmem with hh | hh
    · rw [hh]; exact hb.1
    · exact ihb.1 hill hh

theorem hillInfluence_nonneg (x y : Int) (hill : Hill) (hh : (0 : Int) ≤ hill.height) :
    0 ≤ hillInfluence x y hill := by
  rw [hillInfluence]
  set dist := Real.sqrt (((x : Real) - (hill.x : Real)) * ((x : Real) - (hill.x : Real)) +
    ((y : Real) - (hill.y : Real)) * ((y : Real) - (hill.y : Real))) with hdist
  by_cases hlt : dist < (hill.radius : Real)
  · rw [if_pos hlt]
    have hd0 : 0 ≤ dist := hdist ▸ Real.sqrt_nonneg _
    have hr : (0 : Real) < (hill.radius : Real) := lt_of_le_of_lt hd0 hlt
    have hdiv : dist / (hill.radius : Real) ≤ 1 := (div_le_one hr).mpr hlt.le
    have hcast : (0 : Real) ≤ (hill.height : Real) := by exact_mod_cast hh
    exact mul_nonneg hcast (by linarith)
  · rw [if_neg hlt]

theorem elevation_foldl_nonneg (x y : Int) :
    ∀ (hills : List Hill) (acc : Real), 0 ≤ acc →
      (∀ hill ∈ hills, (0 : Int) ≤ hill.height) →
      0 ≤ hills.foldl (fun a hill => a + hillInfluence x y hill) acc := by
  intro hills
  induction hills with
  | nil => intro acc ha _; simpa using ha
  | cons hd tl ih =>
    intro acc ha hall
    rw [List.foldl_cons]
    apply ih
    · have := hillInfluence_nonneg x y hd (hall hd (List.mem_cons_self hd tl))
      linarith
    · exact fun hill hm => hall hill (List.mem_cons_of_mem _ hm)

theorem elevationValue_nonneg (hills : List Hill) (x y : Int)
    (hall : ∀ hill ∈ hills, (0 : Int) ≤ hill.height) :
    0 ≤ elevationValue hills x y :=
  elevation_foldl_nonneg x y hills 0 le_rfl hall

theorem jsRound_nonneg (x : Real) (hx : 0 ≤ x) : 0 ≤ jsRound x := by
  rw [jsRound]
  exact Int.floor_nonneg.mpr (by linarith)

theorem cellAt_terrainGrid (w h : Int) (hills : List Hill) (x y : Int) (c : GridCell)
    (hc : cellAt { grid := terrainGrid w h hills, width := w, height := h } x y = some c) :
    ∃ a b : Nat, c = terrainCell hills (Int.ofNat a) (Int.ofNat b) := by
  rw [cellAt] at hc
  split at hc
  · simp only [terrainGrid, List.get?_map] at hc
    cases hy : (List.range h.toNat).get? y.toNat with
    | none => rw [hy] at hc; simp at hc
    | some b =>
      rw [hy] at hc
      simp only [Option.map_some', Option.some_bind, List.get?_map] at hc
      cases hx : (List.range w.toNat).get? x.toNat with
      | none => rw [hx] at hc; simp at hc
      | some a =>
        rw [hx] at hc
        simp only [Option.map_some', Option.some_inj] at hc
        exact ⟨a, b, hc.symm⟩
  · exact absurd hc (by simp)

theorem addWater_id (w h : Int) (hills : List Hill) (st : Storage)
    (hall : ∀ xy ∈ cellCoords w h,
      ¬ jsRound (elevationValue hills xy.1 xy.2) < -1) :
    addWater w h hills st = st := by
  rw [addWater]
  revert hall
  generalize cellCoords w h = l
  intro hall
  induction l generalizing st with
  | nil => rfl
  | cons xy tl ih =>
    rw [List.foldl_cons, if_neg (hall xy (List.mem_cons_self xy tl))]
    exact ih st (fun z hz => hall z (List.mem_cons_of_mem _ hz))

theorem resStore_markBuilding (st : Storage) (b : Building) :
    (markBuildingOnWorld st b).resourceStore = st.resourceStore := by
  rw [markBuildingOnWorld]
  split <;> rfl

theorem resStore_markResource (st : Storage) (r : Resource) :
    (markResourceOnWorld st r).resourceStore = st.resourceStore := by
  rw [markResourceOnWorld]
  split <;> rfl

theorem resStore_foldl_markBuilding (l : List (Nat × Building)) :
    ∀ st : Storage,
      (l.foldl (fun acc p => markBuildingOnWorld acc p.2) st).resourceStore =
        st.resourceStore := by
  induction l with
  | nil => intro st; rfl
  | cons p tl ih =>
    intro st
    rw [List.foldl_cons, ih, resStore_markBuilding]

theorem resStore_foldl_markResource (l : List (Nat × Resource)) :
    ∀ st : Storage,
      (l.foldl (fun acc p => markResourceOnWorld acc p.2) st).resourceStore =
        st.resourceStore := by
  induction l with
  | nil => intro st; rfl
  | cons p tl ih =>
    intro st
    rw [List.foldl_cons, ih, resStore_markResource]

/-- C10 counterexample: with the negative seed -1537 (reachable through the
API, whose handler forwards any nonzero seed), the first LCG draws are
negative, the single hill generated for a 10x10 world is
`{x := -1, y := -1, radius := 2, height := -2}`, and cell (0, 0) — at
distance sqrt 2 < 2 from the hill center — gets elevation
round(-2 * (1 - sqrt 2 / 2)) = -1 < 0, refuting the claim that every
generated cell has nonnegative elevation. -/
theorem generateWorld_negative_elevation_cell :
    ((cellAt (generateWorld emptyStorage 10 10 (-1537)).1 0 0).map
      GridCell.elevation) = some (-1) ∧ ¬((0 : Int) ≤ -1) := by
  have hills_eq : (mkHills 10 10 (numHills 10 10) (-1537)).1 =
      [{ x := -1, y := -1, radius := 2, height := -2 }] := by
    have hn : numHills 10 10 = 1 := by decide
    rw [hn]
    have e : (mkHills 10 10 1 (-1537)).1 = [(mkHill 10 10 (-1537)).1] := rfl
    rw [e]
    have h1 : lcgNext (-1537) = -16260 := by decide
    have h2 : lcgNext (-16260) = -19523 := by decide
    have h3 : lcgNext (-19523) = -42286 := by decide
    have h4 : lcgNext (-42286) = -175989 := by decide
    simp only [mkHill, lcgDraw, h1, h2, h3, h4]
    simp only [List.cons.injEq, and_true, Hill.mk.injEq, Rat.mkRat_eq_div]
    norm_num
  have hcell : cellAt (generateWorld emptyStorage 10 10 (-1537)).1 0 0 =
      some (terrainCell (mkHills 10 10 (numHills 10 10) (-1537)).1 0 0) := rfl
  rw [hcell, hills_eq]
  refine ⟨?_, by decide⟩
  simp only [terrainCell, Option.map_some', Option.some_inj]
  have he : elevationValue [{ x := -1, y := -1, radius := 2, height := -2 }] 0 0 =
      hillInfluence 0 0 { x := -1, y := -1, radius := 2, height := -2 } := by
    simp [elevationValue]
  rw [he, hillInfluence]
  have harg : ((0 : Int) : Real) - ((-1 : Int) : Real) = 1 := by norm_num
  rw [harg]
  norm_num
  have hsqrt_lt : Real.sqrt 2 < 2 := by
    nlinarith [Real.sq_sqrt (show (0 : Real) ≤ 2 by norm_num), Real.sqrt_nonneg 2]
  have hsqrt_lb : (1 : Real) ≤ Real.sqrt 2 := by
    nlinarith [Real.sq_sqrt (show (0 : Real) ≤ 2 by norm_num), Real.sqrt_nonneg 2]
  have hsqrt_ub : Real.sqrt 2 < 3 / 2 := by
    nlinarith [Real.sq_sqrt (show (0 : Real) ≤ 2 by norm_num), Real.sqrt_nonneg 2]
  rw [if_pos hsqrt_lt, jsRound]
  rw [Int.floor_eq_iff]
  constructor
  · push_cast
    nlinarith [hsqrt_lb]
  · push_cast
    nlinarith [hsqrt_ub]

/-- C10 amended: for every NONNEGATIVE seed every LCG draw lies in [0, 1), so
every hill has height at least 1, every covered cell receives a nonnegative
influence, every cell's rounded elevation is at least 0, the water branch
(elevation < -1) never fires, and world generation creates no resources. -/
theorem generateWorld_elevation_nonneg (st : Storage) (w h seed : Int)
    (hseed : 0 ≤ seed) :
    (∀ x y : Int, ∀ c : GridCell,
      cellAt (generateWorld st w h seed).1 x y = some c → 0 ≤ c.elevation) ∧
    (generateWorld st w h seed).2.resourceStore = st.resourceStore := by
  have hheights := (mkHills_bounds w h (numHills w h) seed hseed).1
  have hall : ∀ hill ∈ (mkHills w h (numHills w h) seed).1, (0 : Int) ≤ hill.height :=
    fun hill hm => le_trans (by norm_num) (hheights hill hm)
  constructor
  · intro x y c hc
    have hworld : (generateWorld st w h seed).1 =
        { grid := terrainGrid w h (mkHills w h (numHills w h) seed).1,
          width := w, height := h } := rfl
    rw [hworld] at hc
    obtain ⟨a, b, rfl⟩ := cellAt_terrainGrid w h _ x y c hc
    exact jsRound_nonneg _ (elevationValue_nonneg _ a b hall)
  · have haw : addWater w h (mkHills w h (numHills w h) seed).1 st = st :=
      addWater_id w h _ st (fun xy _ => by
        have := jsRound_nonneg _
          (elevationValue_nonneg (mkHills w h (numHills w h) seed).1 xy.1 xy.2 hall)
        omega)
    show (((addWater w h (mkHills w h (numHills w h) seed).1 st).buildingStore.foldl
        (fun acc p => markBuildingOnWorld acc p.2)
        (addWater w h (mkHills w h (numHills w h) seed).1 st)).resourceStore.foldl
          (fun acc p => markResourceOnWorld acc p.2) _).resourceStore = st.resourceStore
    rw [resStore_foldl_markResource, resStore_foldl_markBuilding, haw]

/-- C10 amended witness: seed 42 is nonnegative and the generation run over
the empty storage creates no resources. -/
theorem generateWorld_elevation_nonneg_witness :
    (0 : Int) ≤ 42 ∧
    (generateWorld emptyStorage 10 10 42).2.resourceStore = emptyStorage.resourceStore :=
  ⟨by decide, (generateWorld_elevation_nonneg emptyStorage 10 10 42 (by decide)).2⟩

end DwarvenRealm
